import Mathlib

/-!
Verification of the conversation-evaluation aggregation engine
(`src/evaluation/engine.py`, `src/data/processor.py`) against its
natural-language specification.

The Python code is shallowly embedded: scores, confidences and weights are
modelled as rationals (`ℚ`); Python dicts keyed by strings are modelled as
association lists; fallible operations (async model loading, `asyncio.gather`,
Python exceptions such as `ZeroDivisionError`) are modelled with `Except`.
Every definition is translated directly from the source; comments cite the
source lines.
-/

namespace ConvEval

/-- `EvaluationResult` (inference.py lines 28-34): one raw per-facet judgment.
`score` is an `int` in Python (clamped to 1..5 by the parser); the engine only
uses it numerically, so it is embedded in `ℚ` together with `confidence`. -/
structure EvaluationResult where
  facet : String
  score : ℚ
  confidence : ℚ
  reasoning : String
deriving DecidableEq

/-- Default facet-weight table (engine.py lines 101-125).  The engine merges
this table with optional `facet_weights` from the config (lines 127-130); the
claims are about the registry weights, i.e. the engine constructed with no
config override, so the merged dict is exactly this table. -/
def defaultFacetWeights : List (String × ℚ) :=
  [("grammar", 1), ("coherence", 12/10), ("fluency", 1),
   ("vocabulary_richness", 8/10), ("clarity", 13/10),
   ("appropriateness", 15/10), ("relevance", 14/10), ("politeness", 11/10),
   ("context_understanding", 13/10),
   ("toxicity", 2), ("bias", 18/10), ("harmful_content", 2), ("hate_speech", 2),
   ("empathy", 12/10), ("sentiment", 1), ("emotional_appropriateness", 11/10)]

/-- Python dict lookup on a string-keyed association list (dict keys are
unique, so first match is the match). -/
def lookupKey {β : Type} (k : String) : List (String × β) → Option β
  | [] => none
  | p :: es => if p.1 = k then some p.2 else lookupKey k es

/-- `self.facet_weights.get(result.facet, 1.0)` (engine.py line 144):
registry lookup with fallback weight `1.0` for unknown facets. -/
def facetWeight (facet : String) : ℚ :=
  (lookupKey facet defaultFacetWeights).getD 1

/-- Numerator of the weighted score: `total_weighted_score` accumulated at
engine.py lines 143-147. -/
def weightedNum (facet_results : List EvaluationResult) : ℚ :=
  (facet_results.map (fun r => r.score * facetWeight r.facet * r.confidence)).sum

/-- Denominator of the weighted score: `total_weight` accumulated at
engine.py lines 143-148. -/
def weightedDenom (facet_results : List EvaluationResult) : ℚ :=
  (facet_results.map (fun r => facetWeight r.facet * r.confidence)).sum

/-- `FacetEvaluator.calculate_weighted_score` (engine.py lines 134-150):
returns 0.0 on an empty input, otherwise the accumulated quotient, guarded by
`if total_weight > 0 else 0.0` (line 150). -/
def calculate_weighted_score (facet_results : List EvaluationResult) : ℚ :=
  if facet_results = [] then 0
  else if 0 < weightedDenom facet_results then
    weightedNum facet_results / weightedDenom facet_results
  else 0

/-- Facet category lists (engine.py lines 182-185). -/
def linguistic_facets : List String :=
  ["grammar", "coherence", "fluency", "vocabulary_richness", "clarity"]

def pragmatic_facets : List String :=
  ["appropriateness", "relevance", "politeness", "context_understanding"]

def safety_facets : List String :=
  ["toxicity", "bias", "harmful_content", "hate_speech"]

def emotion_facets : List String :=
  ["empathy", "sentiment", "emotional_appropriateness"]

/-- `FacetEvaluator._get_facet_category` (engine.py lines 180-196). -/
def get_facet_category (facet : String) : String :=
  if facet ∈ linguistic_facets then "linguistic_quality"
  else if facet ∈ pragmatic_facets then "pragmatics"
  else if facet ∈ safety_facets then "safety"
  else if facet ∈ emotion_facets then "emotion"
  else "other"

/-- The closed set of category names that `get_facet_category` can return. -/
def categoryNames : List String :=
  ["linguistic_quality", "pragmatics", "safety", "emotion", "other"]

/-- The scores of the judgments falling in category `cat`
(the dict `categories[category]` built at engine.py lines 159-164;
list order is judgment order, as in the Python append loop). -/
def categoryScores (facet_results : List EvaluationResult) (cat : String) : List ℚ :=
  (facet_results.filter (fun r => get_facet_category r.facet = cat)).map (·.score)

/-- Population variance as computed inline at engine.py lines 172-173
(and again at lines 317-318): mean, then mean of squared deviations. -/
def popVariance (scores : List ℚ) : ℚ :=
  let mean_score := scores.sum / (scores.length : ℚ)
  (scores.map (fun s => (s - mean_score) ^ 2)).sum / (scores.length : ℚ)

/-- Per-category consistency `max(0, 1 - variance / 4)` (engine.py line 175). -/
def consistencyOf (scores : List ℚ) : ℚ :=
  max 0 (1 - popVariance scores / 4)

/-- The list `consistency_scores` (engine.py lines 167-176): one entry per
category holding more than one judgment.  Python iterates the grouping dict in
first-appearance order; since only the average of the values is used and the
average is order-independent, the embedding enumerates the closed category set
in a fixed order, which yields the same multiset of values. -/
def consistencyScores (facet_results : List EvaluationResult) : List ℚ :=
  (categoryNames.filter (fun c => 1 < (categoryScores facet_results c).length)).map
    (fun c => consistencyOf (categoryScores facet_results c))

/-- `FacetEvaluator.analyze_facet_consistency` (engine.py lines 152-178). -/
def analyze_facet_consistency (facet_results : List EvaluationResult) : ℚ :=
  if facet_results.length < 2 then 1
  else if consistencyScores facet_results = [] then 1
  else (consistencyScores facet_results).sum / ((consistencyScores facet_results).length : ℚ)

/-- `ConfidenceMetrics` (engine.py lines 59-65). -/
structure ConfidenceMetrics where
  overall_confidence : ℚ
  model_confidence : ℚ
  consistency_score : ℚ
  uncertainty_estimate : ℚ
deriving DecidableEq

/-- `ConversationEvaluationEngine._calculate_score_variance`
(engine.py lines 311-320): 0.0 for fewer than two results, else the population
variance of the scores. -/
def calculate_score_variance (facet_results : List EvaluationResult) : ℚ :=
  if facet_results.length < 2 then 0
  else popVariance (facet_results.map (·.score))

/-- `ConversationEvaluationEngine._calculate_confidence_metrics`
(engine.py lines 278-309).  The sentinel for the empty list is at lines
281-282; `model_confidence` divides by the sum of the registry weights of the
judged facets (lines 293-295); `uncertainty_estimate` is
`min(1.0, score_variance / 2.0)` (line 302). -/
def calculate_confidence_metrics (facet_results : List EvaluationResult) : ConfidenceMetrics :=
  if facet_results = [] then ⟨0, 0, 0, 1⟩
  else
    let overall_confidence :=
      (facet_results.map (·.confidence)).sum / (facet_results.length : ℚ)
    let model_confidence :=
      (facet_results.map (fun r => r.confidence * facetWeight r.facet)).sum /
        (facet_results.map (fun r => facetWeight r.facet)).sum
    let consistency_score := analyze_facet_consistency facet_results
    let uncertainty_estimate := min 1 (calculate_score_variance facet_results / 2)
    ⟨overall_confidence, model_confidence, consistency_score, uncertainty_estimate⟩

/-! ## Text cleaning (`src/data/processor.py`, lines 73-92)

`clean_conversation_text` works on Python strings; it is embedded on
`List Char`.  Python's `\s` / `str.strip()` whitespace and `\w` are modelled
for the ASCII range (the regexes default to Unicode classes, but every input
the claims touch is ASCII and the embedded operators agree with Python on
ASCII). -/

/-- ASCII whitespace as matched by Python `\s` and stripped by `str.strip()`:
space, tab, newline, carriage return, vertical tab, form feed. -/
def pyIsSpace (c : Char) : Bool :=
  c = ' ' || c = '\t' || c = '\n' || c = '\r' || c = Char.ofNat 11 || c = Char.ofNat 12

/-- `text.strip()` (processor.py line 79): drop leading and trailing whitespace. -/
def pyStrip (l : List Char) : List Char :=
  ((l.dropWhile pyIsSpace).reverse.dropWhile pyIsSpace).reverse

/-- `re.sub(r"\s+", " ", text)` (processor.py line 79): each maximal run of
whitespace becomes a single space.  The boolean accumulator tracks whether the
previous character was part of a whitespace run. -/
def collapseWS (l : List Char) : List Char :=
  (l.foldl (fun acc c =>
    if pyIsSpace c then (if acc.2 then acc.1 else acc.1 ++ [' '], true)
    else (acc.1 ++ [c], false)) (([] : List Char), false)).1

/-- `str.replace` on character lists: replace non-overlapping occurrences of
`target` left to right.  Structural on a fuel argument (initialised to the
string length, which bounds the number of steps for a non-empty target). -/
def strReplaceAux (target repl : List Char) : ℕ → List Char → List Char
  | _, [] => []
  | 0, s => s
  | fuel + 1, c :: cs =>
    if target.isPrefixOf (c :: cs) then
      repl ++ strReplaceAux target repl fuel ((c :: cs).drop target.length)
    else
      c :: strReplaceAux target repl fuel cs

/-- Python `s.replace(target, repl)` for a non-empty `target` (all the calls in
`clean_conversation_text` have non-empty targets; Python's empty-target
behaviour is not needed and the identity is returned instead). -/
def strReplace (s target repl : List Char) : List Char :=
  if target = [] then s else strReplaceAux target repl s.length s

/-- The double-quote character `"` (written via its code point to keep the
character data out of the Lean source text). -/
def dquote : Char := Char.ofNat 34

/-- The single-quote character. -/
def squote : Char := Char.ofNat 39

/-- First argument of the replace on processor.py line 83.  The source line
`text = text.replace(''', "'").replace(''', "'")` has lost its curly quotes
(they were mangled to plain quotes), so Python lexes the middle of the line
as one triple-quoted string: the line is a single call replacing the literal
15-character substring
comma, space, `"`, `'`, `"`, `)`, `.`, `r`, `e`, `p`, `l`, `a`, `c`, `e`, `(`
with a single quote. -/
def mangledTarget : List Char :=
  [',', ' ', dquote, squote, dquote, ')', '.', 'r', 'e', 'p', 'l', 'a', 'c', 'e', '(']

/-- Python `\w` on ASCII: letters, digits, underscore. -/
def isWordChar (c : Char) : Bool :=
  c.isAlphanum || c = '_'

/-- The character class kept by `re.sub(r"[^\w\s\.,!?;:\'\"-]", "", text)`
(processor.py line 86). -/
def keepChar (c : Char) : Bool :=
  isWordChar c || pyIsSpace c || c ∈ ['.', ',', '!', '?', ';', ':', squote, dquote, '-']

/-- Processor.py lines 89-90: append a period unless the text is empty or
already ends in `.`, `!` or `?`. -/
def ensureSentenceEnd (l : List Char) : List Char :=
  match l.getLast? with
  | none => l
  | some c => if c ∈ ['.', '!', '?'] then l else l ++ ['.']

/-- `DataProcessor.clean_conversation_text` (processor.py lines 73-92).
The non-string branch (line 75-76) is outside the typed embedding.  Line 82
(`text.replace('"', '"').replace('"', '"')`) replaces the double quote by
itself twice; line 83 is the mangled replace described at `mangledTarget`. -/
def clean_conversation_text (text : String) : String :=
  let t1 := collapseWS (pyStrip text.data)
  let t2 := strReplace (strReplace t1 [dquote] [dquote]) [dquote] [dquote]
  let t3 := strReplace t2 mangledTarget [squote]
  let t4 := t3.filter keepChar
  String.mk (ensureSentenceEnd t4)

/-! ## Engine orchestration (`src/evaluation/engine.py`, lines 199-470)

The external model collaborator is embedded as a `Model` value carrying the
judge capability; the outcome of the awaited `load_model_async` call is an
`Except` parameter; `time.time()` readings are `ℚ` parameters. -/

/-- A loaded model handle: `model.model_name` and the judgment capability
`model.evaluate_conversation(conversation, facets)` (inference.py). -/
structure Model where
  model_name : String
  judge : String → List String → List EvaluationResult

/-- `ConversationEvaluationEngine._evaluate_facets_async` (engine.py lines
254-276): split the facet list into sub-batches of `batch_size` and invoke the
judge once per sub-batch, concatenating the results in batch order. -/
def evaluate_facets (batch_size : ℕ) (model : Model)
    (conversation : String) (facets : List String) : List EvaluationResult :=
  ((List.toChunks batch_size facets).map (fun batch => model.judge conversation batch)).flatten

/-- Replace-or-append insertion matching Python dict assignment `d[k] = v`
(existing key keeps its position, new key goes to the end). -/
def dictInsert (d : List (String × EvaluationResult)) (k : String) (v : EvaluationResult) :
    List (String × EvaluationResult) :=
  if (lookupKey k d).isSome then d.map (fun p => if p.1 = k then (k, v) else p)
  else d ++ [(k, v)]

/-- The dict comprehension `{result.facet: result for result in facet_results}`
(engine.py line 245): last write wins on duplicate facets. -/
def toFacetDict (rs : List EvaluationResult) : List (String × EvaluationResult) :=
  rs.foldl (fun d r => dictInsert d r.facet r) []

/-- `ConversationEvaluation` (engine.py lines 68-77). -/
structure ConversationEvaluation where
  conversation_id : String
  conversation_text : String
  facet_scores : List (String × EvaluationResult)
  confidence_metrics : ConfidenceMetrics
  processing_time : ℚ
  model_used : String
  timestamp : ℚ
deriving DecidableEq

/-- `ConversationEvaluationEngine.evaluate_conversation` (engine.py lines
209-252).  `loaded` is the outcome of `await load_model_async(...)` (line
229; an exception there propagates).  `t_start` is the `time.time()` reading
at line 215, also used by the id generation at line 223
(`conversation_id or f"conv_{int(time.time())}"`; Python `or` also replaces an
empty string, and `int()` truncates toward zero, which equals the floor for
the nonnegative wall-clock values involved).  `t_end` is the reading at lines
240/249. -/
def evaluate_conversation (batch_size : ℕ) (loaded : Except String Model)
    (conversation : String) (facets : List String)
    (conversation_id : Option String) (t_start t_end : ℚ) :
    Except String ConversationEvaluation :=
  let conv_id :=
    match conversation_id with
    | some cid => if cid = "" then "conv_" ++ toString ⌊t_start⌋ else cid
    | none => "conv_" ++ toString ⌊t_start⌋
  let clean_text := clean_conversation_text conversation
  match loaded with
  | .error e => .error e
  | .ok model =>
    let facet_results := evaluate_facets batch_size model clean_text facets
    .ok { conversation_id := conv_id
          conversation_text := clean_text
          facet_scores := toFacetDict facet_results
          confidence_metrics := calculate_confidence_metrics facet_results
          processing_time := t_end - t_start
          model_used := model.model_name
          timestamp := t_end }

/-- `asyncio.gather(*tasks)` without `return_exceptions` (engine.py line 341):
if every task succeeds, the results in task order; if any task raises, the
awaited gather raises.  Which exception is observed when several tasks fail
depends on completion timing; the embedding propagates the first in task
order (no claim depends on the choice). -/
def gatherExcept : List (Except String α) → Except String (List α)
  | [] => .ok []
  | .error e :: _ => .error e
  | .ok a :: ts => (gatherExcept ts).map (a :: ·)

/-- `BatchEvaluationResult` (engine.py lines 80-86).  The `facet_statistics`
field is not embedded: its `score_std` entry is a real-valued square root
(engine.py line 378) outside `ℚ`, and no claim refers to any statistic. -/
structure BatchEvaluationResult where
  evaluations : List ConversationEvaluation
  total_processing_time : ℚ
  average_confidence : ℚ
deriving DecidableEq

/-- `ConversationEvaluationEngine.batch_evaluate` (engine.py lines 322-355).
`loads i` is the model-acquisition outcome inside conversation `i`'s task;
`times i` the per-task `time.time()` readings.  Line 335 passes the
caller-side id `batch_conv_{i}` to every task.  Line 345 divides by
`len(evaluations)`: for an empty batch this raises `ZeroDivisionError`, which
the embedding surfaces as an error value. -/
def batch_evaluate (batch_size : ℕ) (loads : ℕ → Except String Model)
    (conversations : List String) (facets : List String)
    (t_start t_end : ℚ) (times : ℕ → ℚ × ℚ) : Except String BatchEvaluationResult :=
  let tasks := conversations.enum.map (fun ic =>
    evaluate_conversation batch_size (loads ic.1) ic.2 facets
      (some ("batch_conv_" ++ toString ic.1)) (times ic.1).1 (times ic.1).2)
  match gatherExcept tasks with
  | .error e => .error e
  | .ok evaluations =>
    if evaluations.length = 0 then .error "ZeroDivisionError"
    else .ok { evaluations := evaluations
               total_processing_time := t_end - t_start
               average_confidence :=
                 (evaluations.map (·.confidence_metrics.overall_confidence)).sum /
                   (evaluations.length : ℚ) }

/-! ## Multi-model comparison (`engine.py` lines 421-470) -/

/-- The comparison dict skeleton (engine.py lines 427-432), with each map
embedded as a facet-keyed association list. -/
structure ComparisonResult where
  model_agreements : List (String × ℚ)
  score_differences : List (String × List (String × ℚ))
  confidence_comparison : List (String × List (String × ℚ))
  consensus_scores : List (String × ℚ)
deriving DecidableEq

/-- The `(model, score, confidence)` triples collected for one facet
(engine.py lines 441-448): one entry per model whose evaluation contains the
facet, in model order. -/
def facetResultsFor (evaluations : List (String × ConversationEvaluation))
    (facet : String) : List (String × ℚ × ℚ) :=
  evaluations.filterMap (fun me =>
    (lookupKey facet me.2.facet_scores).map (fun r => (me.1, r.score, r.confidence)))

/-- `all_facets` (engine.py lines 435-437): the union of the facet keys of all
evaluations.  Python builds a `set`, whose iteration order is unspecified; the
derived maps are keyed by facet, so their contents do not depend on the order
and the embedding fixes first-appearance order. -/
def allFacets (evaluations : List (String × ConversationEvaluation)) : List String :=
  (evaluations.flatMap (fun me => me.2.facet_scores.map (·.1))).dedup

/-- The scores of the collected triples. -/
def scoresOf (d : List (String × ℚ × ℚ)) : List ℚ := d.map (fun x => x.2.1)

/-- The confidences of the collected triples. -/
def confsOf (d : List (String × ℚ × ℚ)) : List ℚ := d.map (fun x => x.2.2)

/-- Python `max` over a non-empty list (`max(scores)`, engine.py line 454);
the `[]` case is arbitrary, every use is guarded by length at least 2. -/
def listMax : List ℚ → ℚ
  | [] => 0
  | x :: xs => xs.foldl max x

/-- Python `min` over a non-empty list (`min(scores)`, engine.py line 454). -/
def listMin : List ℚ → ℚ
  | [] => 0
  | x :: xs => xs.foldl min x

/-- `agreement = max(0, 1 - score_range / 4)` (engine.py lines 454-455). -/
def agreementOf (scores : List ℚ) : ℚ :=
  max 0 (1 - (listMax scores - listMin scores) / 4)

/-- Consensus score (engine.py lines 461-467): confidence-weighted mean,
falling back to the unweighted mean when the confidence sum is not positive. -/
def consensusOf (d : List (String × ℚ × ℚ)) : ℚ :=
  if 0 < (confsOf d).sum
  then (d.map (fun x => x.2.1 * x.2.2)).sum / (confsOf d).sum
  else (scoresOf d).sum / (d.length : ℚ)

/-- The `model_agreements` entry for one facet: present only when at least 2
models produced a result for it (engine.py line 450). -/
def agreementEntry (evaluations : List (String × ConversationEvaluation))
    (facet : String) : Option ℚ :=
  if 2 ≤ (facetResultsFor evaluations facet).length
  then some (agreementOf (scoresOf (facetResultsFor evaluations facet))) else none

/-- The `score_differences` entry for one facet (engine.py line 458): the
per-model raw scores. -/
def scoreDiffEntry (evaluations : List (String × ConversationEvaluation))
    (facet : String) : Option (List (String × ℚ)) :=
  if 2 ≤ (facetResultsFor evaluations facet).length
  then some ((facetResultsFor evaluations facet).map (fun x => (x.1, x.2.1))) else none

/-- The `confidence_comparison` entry for one facet (engine.py line 459). -/
def confCompEntry (evaluations : List (String × ConversationEvaluation))
    (facet : String) : Option (List (String × ℚ)) :=
  if 2 ≤ (facetResultsFor evaluations facet).length
  then some ((facetResultsFor evaluations facet).map (fun x => (x.1, x.2.2))) else none

/-- The `consensus_scores` entry for one facet (engine.py lines 461-468). -/
def consensusEntry (evaluations : List (String × ConversationEvaluation))
    (facet : String) : Option ℚ :=
  if 2 ≤ (facetResultsFor evaluations facet).length
  then some (consensusOf (facetResultsFor evaluations facet)) else none

/-- The comparison structure built by the facet loop (engine.py lines
439-468). -/
def comparisonOk (evaluations : List (String × ConversationEvaluation)) : ComparisonResult :=
  { model_agreements := (allFacets evaluations).filterMap
      (fun f => (agreementEntry evaluations f).map (fun v => (f, v)))
    score_differences := (allFacets evaluations).filterMap
      (fun f => (scoreDiffEntry evaluations f).map (fun v => (f, v)))
    confidence_comparison := (allFacets evaluations).filterMap
      (fun f => (confCompEntry evaluations f).map (fun v => (f, v)))
    consensus_scores := (allFacets evaluations).filterMap
      (fun f => (consensusEntry evaluations f).map (fun v => (f, v))) }

/-- `ConversationEvaluationEngine.compare_evaluations` (engine.py lines
421-470).  With fewer than 2 evaluations Python returns the dict
`{"error": "Need at least 2 evaluations to compare"}` instead of a
comparison; embedded as the error branch of `Except`. -/
def compare_evaluations (evaluations : List (String × ConversationEvaluation)) :
    Except String ComparisonResult :=
  if evaluations.length < 2 then .error "Need at least 2 evaluations to compare"
  else .ok (comparisonOk evaluations)

/-- A concrete judge used by concrete instantiations: scores every requested
facet 3 with confidence 4/5 (the shape of the repository's fallback mock
model, engine.py lines 22-31). -/
def mockJudge (_conversation : String) (facets : List String) : List EvaluationResult :=
  facets.map (fun f => ⟨f, 3, 4/5, "Mock evaluation result"⟩)

/-- A concrete loaded model handle. -/
def mockModel : Model := ⟨"mock-model", mockJudge⟩

/-! ## General lemmas -/

/-- A successful `lookupKey` means the key-value pair occurs in the list. -/
lemma mem_of_lookupKey_eq_some {β : Type} {k : String} {v : β} :
    ∀ {l : List (String × β)}, lookupKey k l = some v → (k, v) ∈ l := by
  intro l
  induction l with
  | nil => intro h; simp [lookupKey] at h
  | cons p es ih =>
    obtain ⟨a, b⟩ := p
    intro h
    simp only [lookupKey] at h
    split at h
    · next heq =>
      cases heq
      cases Option.some.inj h
      exact List.mem_cons_self _ _
    · exact List.mem_cons_of_mem _ (ih h)

/-- Every registry weight is positive: the default table holds positive values
and the fallback is 1. -/
lemma facetWeight_pos (facet : String) : 0 < facetWeight facet := by
  unfold facetWeight
  cases hl : lookupKey facet defaultFacetWeights with
  | none => norm_num
  | some w =>
    have hw : (facet, w) ∈ defaultFacetWeights := mem_of_lookupKey_eq_some hl
    have h : ∀ p ∈ defaultFacetWeights, 0 < p.2 := by
      intro p hp
      fin_cases hp <;> norm_num
    simpa using h _ hw

/-- The weighted-score denominator is non-negative for non-negative
confidences. -/
lemma weightedDenom_nonneg (J : List EvaluationResult)
    (hconf : ∀ r ∈ J, 0 ≤ r.confidence) : 0 ≤ weightedDenom J := by
  apply List.sum_nonneg
  intro x hx
  obtain ⟨r, hr, rfl⟩ := List.mem_map.mp hx
  exact mul_nonneg (facetWeight_pos r.facet).le (hconf r hr)

/-- The population variance of any score list is non-negative. -/
lemma popVariance_nonneg (l : List ℚ) : 0 ≤ popVariance l := by
  simp only [popVariance]
  apply div_nonneg _ (Nat.cast_nonneg _)
  apply List.sum_nonneg
  intro x hx
  obtain ⟨s, _, rfl⟩ := List.mem_map.mp hx
  positivity

/-- The population variance of a singleton is 0. -/
lemma popVariance_singleton (x : ℚ) : popVariance [x] = 0 := by
  simp [popVariance]

/-- The population variance of a non-empty list whose members are pairwise
equal is 0. -/
lemma popVariance_of_all_eq (l : List ℚ) (hne : l ≠ [])
    (h : ∀ x ∈ l, ∀ y ∈ l, x = y) : popVariance l = 0 := by
  obtain ⟨a, t, rfl⟩ := List.exists_cons_of_ne_nil hne
  have hall : ∀ x ∈ a :: t, x = a := fun x hx => h x hx a (by simp)
  have hlen : (((a :: t).length : ℚ)) ≠ 0 := by
    have h0 : (0 : ℚ) < ((a :: t).length : ℚ) := by
      exact_mod_cast Nat.succ_pos t.length
    exact h0.ne'
  have hmean : (a :: t).sum / ((a :: t).length : ℚ) = a := by
    rw [List.sum_eq_card_nsmul _ a hall, nsmul_eq_mul, mul_comm, mul_div_assoc,
      div_self hlen, mul_one]
  simp only [popVariance]
  rw [hmean]
  have hz : ((a :: t).map (fun s => (s - a) ^ 2)).sum = 0 := by
    apply List.sum_eq_zero
    intro x hx
    obtain ⟨s, hs, rfl⟩ := List.mem_map.mp hx
    rw [hall s hs]
    ring
  rw [hz, zero_div]

/-! ## Claim theorems -/

/-- Claim C1 — `calculate_weighted_score` returns
`sum(score_j * weight_j * confidence_j) / sum(weight_j * confidence_j)` with
registry weights (fallback 1 for unknown facets), and exactly 0 whenever the
denominator is zero (all weights or confidences zero, or the list empty),
without failing.  Confidences are non-negative per the data model. -/
theorem calculate_weighted_score_spec (J : List EvaluationResult)
    (hconf : ∀ r ∈ J, 0 ≤ r.confidence) :
    (weightedDenom J ≠ 0 →
      calculate_weighted_score J = weightedNum J / weightedDenom J)
    ∧ (weightedDenom J = 0 → calculate_weighted_score J = 0) := by
  constructor
  · intro hne
    have hpos : 0 < weightedDenom J :=
      lt_of_le_of_ne (weightedDenom_nonneg J hconf) (Ne.symm hne)
    have hJ : J ≠ [] := by
      rintro rfl
      exact hne rfl
    unfold calculate_weighted_score
    rw [if_neg hJ, if_pos hpos]
  · intro h0
    unfold calculate_weighted_score
    by_cases hJ : J = []
    · rw [if_pos hJ]
    · rw [if_neg hJ, h0, if_neg (lt_irrefl 0)]

/-- Witness for C1 at the spec's scenario judgments
`[{grammar,5,0.9},{clarity,4,0.8},{toxicity,1,0.95}]` (non-zero denominator,
so the quotient formula applies). -/
theorem calculate_weighted_score_spec_witness :
    calculate_weighted_score
        [⟨"grammar", 5, 9/10, ""⟩, ⟨"clarity", 4, 4/5, ""⟩, ⟨"toxicity", 1, 19/20, ""⟩]
      = weightedNum
          [⟨"grammar", 5, 9/10, ""⟩, ⟨"clarity", 4, 4/5, ""⟩, ⟨"toxicity", 1, 19/20, ""⟩]
        / weightedDenom
          [⟨"grammar", 5, 9/10, ""⟩, ⟨"clarity", 4, 4/5, ""⟩, ⟨"toxicity", 1, 19/20, ""⟩] :=
  (calculate_weighted_score_spec _ (by intro r hr; fin_cases hr <;> norm_num)).1 (by
    simp [weightedDenom, facetWeight, defaultFacetWeights, lookupKey]
    norm_num)

/-- Claim C2 — `analyze_facet_consistency` groups judgments by facet
category, maps each category with at least 2 members through
`max(0, 1 - popVariance/4)` and averages; it returns exactly 1 for fewer than
2 judgments, and exactly 1 when all judgments in every multi-member category
share an identical score (also when no multi-member category exists). -/
theorem analyze_facet_consistency_spec (J : List EvaluationResult) :
    (J.length < 2 → analyze_facet_consistency J = 1)
    ∧ (2 ≤ J.length →
        analyze_facet_consistency J =
          if consistencyScores J = [] then 1
          else (consistencyScores J).sum / ((consistencyScores J).length : ℚ))
    ∧ ((∀ c ∈ categoryNames, 2 ≤ (categoryScores J c).length →
          ∀ x ∈ categoryScores J c, ∀ y ∈ categoryScores J c, x = y) →
        analyze_facet_consistency J = 1) := by
  refine ⟨?_, ?_, ?_⟩
  · intro h
    unfold analyze_facet_consistency
    rw [if_pos h]
  · intro h2
    unfold analyze_facet_consistency
    rw [if_neg (not_lt.mpr h2)]
  · intro hconst
    unfold analyze_facet_consistency
    by_cases h2 : J.length < 2
    · rw [if_pos h2]
    · rw [if_neg h2]
      have hall : ∀ v ∈ consistencyScores J, v = 1 := by
        intro v hv
        simp only [consistencyScores, List.mem_map, List.mem_filter] at hv
        obtain ⟨c, ⟨hcmem, hclen⟩, rfl⟩ := hv
        have hlen2 : 2 ≤ (categoryScores J c).length := by
          have := of_decide_eq_true hclen
          omega
        have hne : categoryScores J c ≠ [] := by
          intro hnil
          rw [hnil] at hlen2
          simp at hlen2
        have hvar : popVariance (categoryScores J c) = 0 :=
          popVariance_of_all_eq _ hne (hconst c hcmem hlen2)
        simp only [consistencyOf, hvar]
        norm_num
      by_cases hcs : consistencyScores J = []
      · rw [if_pos hcs]
      · rw [if_neg hcs]
        have hlen : ((consistencyScores J).length : ℚ) ≠ 0 := by
          have h0 : 0 < (consistencyScores J).length := List.length_pos.mpr hcs
          exact_mod_cast h0.ne'
        rw [List.sum_eq_card_nsmul _ 1 hall, nsmul_eq_mul, mul_one, div_self hlen]

/-- Witness for C2: three judgments where the only multi-member category
(linguistic quality, via grammar and clarity) carries the identical score 4,
so the consistency is exactly 1. -/
theorem analyze_facet_consistency_spec_witness :
    analyze_facet_consistency
        [⟨"grammar", 4, 1, ""⟩, ⟨"clarity", 4, 1, ""⟩, ⟨"toxicity", 2, 1, ""⟩] = 1 := by
  refine (analyze_facet_consistency_spec _).2.2 ?_
  intro c hc
  fin_cases hc <;>
    simp_all [categoryScores, get_facet_category, linguistic_facets, pragmatic_facets,
      safety_facets, emotion_facets]

/-- Claim C3 — for every non-empty judgment list the uncertainty estimate is
the population variance of the raw scores divided by 2, clamped to `[0,1]`;
it is 0 when all raw scores are identical. -/
theorem uncertainty_estimate_spec (J : List EvaluationResult) (hne : J ≠ []) :
    (calculate_confidence_metrics J).uncertainty_estimate
        = min 1 (max 0 (popVariance (J.map (·.score)) / 2))
    ∧ ((∀ x ∈ J.map (·.score), ∀ y ∈ J.map (·.score), x = y) →
        (calculate_confidence_metrics J).uncertainty_estimate = 0) := by
  have hu : (calculate_confidence_metrics J).uncertainty_estimate
      = min 1 (calculate_score_variance J / 2) := by
    unfold calculate_confidence_metrics
    rw [if_neg hne]
  have hvar : calculate_score_variance J = popVariance (J.map (·.score)) := by
    unfold calculate_score_variance
    by_cases h2 : J.length < 2
    · rw [if_pos h2]
      obtain ⟨r, rfl⟩ : ∃ r, J = [r] := by
        cases J with
        | nil => exact absurd rfl hne
        | cons a t =>
          cases t with
          | nil => exact ⟨a, rfl⟩
          | cons b u =>
            exfalso
            simp only [List.length_cons] at h2
            omega
      simp [popVariance_singleton]
    · rw [if_neg h2]
  constructor
  · rw [hu, hvar]
    congr 1
    rw [max_eq_right (div_nonneg (popVariance_nonneg _) (by norm_num))]
  · intro hconst
    have hmapne : J.map (·.score) ≠ [] := by
      cases J with
      | nil => exact absurd rfl hne
      | cons a t => simp
    rw [hu, hvar, popVariance_of_all_eq _ hmapne hconst]
    norm_num

/-- Witness for C3 at the two-judgment list with scores 5 and 1. -/
theorem uncertainty_estimate_spec_witness :
    (calculate_confidence_metrics
        [⟨"grammar", 5, 9/10, ""⟩, ⟨"clarity", 1, 1, ""⟩]).uncertainty_estimate
      = min 1 (max 0 (popVariance
          ([⟨"grammar", 5, 9/10, ""⟩, ⟨"clarity", 1, 1, ""⟩].map
            (EvaluationResult.score)) / 2)) :=
  (uncertainty_estimate_spec _ (by simp)).1

/-- Claim C4 — the empty judgment list yields the sentinel
`ConfidenceMetrics(0.0, 0.0, 0.0, 1.0)` exactly, rather than failing. -/
theorem calculate_confidence_metrics_empty :
    calculate_confidence_metrics [] = ⟨0, 0, 0, 1⟩ := rfl

/-- Claim C10 — a single judgment with confidence `c` yields
`ConfidenceMetrics(c, c, 1.0, 0.0)`, not the empty-list sentinel. -/
theorem calculate_confidence_metrics_single (r : EvaluationResult) :
    calculate_confidence_metrics [r] = ⟨r.confidence, r.confidence, 1, 0⟩ := by
  have hw : facetWeight r.facet ≠ 0 := (facetWeight_pos r.facet).ne'
  unfold calculate_confidence_metrics
  rw [if_neg (by simp)]
  simp only [ConfidenceMetrics.mk.injEq]
  refine ⟨?_, ?_, ?_, ?_⟩
  · simp
  · simp [mul_div_assoc, div_self hw]
  · simp [analyze_facet_consistency]
  · simp [calculate_score_variance]

/-- Looking a key up in an association list built by filter-mapping an option
function over a duplicate-free key list amounts to applying that function,
provided the key occurs in the list. -/
lemma lookupKey_filterMap {α : Type} (g : String → Option α) :
    ∀ (l : List String), l.Nodup → ∀ f : String,
      lookupKey f (l.filterMap (fun x => (g x).map (fun v => (x, v))))
        = if f ∈ l then g f else none := by
  intro l
  induction l with
  | nil => intro _ f; simp [lookupKey]
  | cons a t ih =>
    intro hnd f
    obtain ⟨ha, ht⟩ := List.nodup_cons.mp hnd
    cases hg : g a with
    | none =>
      simp only [List.filterMap_cons, hg, Option.map_none']
      rw [ih ht f]
      by_cases hf : f = a
      · subst hf
        rw [if_neg ha, if_pos (List.mem_cons_self f t), hg]
      · rw [if_congr ((List.mem_cons.trans (or_iff_right hf)).symm) rfl rfl]
    | some v =>
      simp only [List.filterMap_cons, hg, Option.map_some']
      simp only [lookupKey]
      by_cases hf : f = a
      · subst hf
        rw [if_pos rfl, if_pos (List.mem_cons_self f t), hg]
      · rw [if_neg (fun h => hf h.symm), ih ht f,
          if_congr ((List.mem_cons.trans (or_iff_right hf)).symm) rfl rfl]

/-- A facet with at least one collected triple occurs in `allFacets`. -/
lemma facet_mem_allFacets {evaluations : List (String × ConversationEvaluation)}
    {facet : String} (hne : facetResultsFor evaluations facet ≠ []) :
    facet ∈ allFacets evaluations := by
  obtain ⟨x, hx⟩ := List.exists_mem_of_ne_nil _ hne
  simp only [facetResultsFor, List.mem_filterMap] at hx
  obtain ⟨me, hme, hsome⟩ := hx
  cases hl : lookupKey facet me.2.facet_scores with
  | none => rw [hl] at hsome; simp at hsome
  | some r =>
    have hkey : (facet, r) ∈ me.2.facet_scores := mem_of_lookupKey_eq_some hl
    simp only [allFacets, List.mem_dedup, List.mem_flatMap]
    exact ⟨me, hme, by simpa using List.mem_map_of_mem Prod.fst hkey⟩

/-- Claim C5 — in `compare_evaluations` (which succeeds for at least two
models), every facet judged by at least 2 models gets
`agreement = max(0, 1 - (max(scores) - min(scores))/4)` and a consensus equal
to the confidence-weighted mean (unweighted mean when every confidence is 0,
never dividing by zero); a facet with fewer than 2 model results is omitted
from the agreement, score-difference and consensus maps. -/
theorem compare_evaluations_spec
    (evaluations : List (String × ConversationEvaluation)) (facet : String)
    (h2 : 2 ≤ evaluations.length)
    (hconf : ∀ x ∈ facetResultsFor evaluations facet, 0 ≤ x.2.2) :
    compare_evaluations evaluations = .ok (comparisonOk evaluations)
    ∧ (2 ≤ (facetResultsFor evaluations facet).length →
        (lookupKey facet (comparisonOk evaluations).model_agreements
            = some (max 0 (1 -
                (listMax (scoresOf (facetResultsFor evaluations facet))
                  - listMin (scoresOf (facetResultsFor evaluations facet))) / 4))
          ∧ ((∃ x ∈ facetResultsFor evaluations facet, 0 < x.2.2) →
              lookupKey facet (comparisonOk evaluations).consensus_scores
                = some (((facetResultsFor evaluations facet).map
                      (fun x => x.2.1 * x.2.2)).sum
                    / (confsOf (facetResultsFor evaluations facet)).sum))
          ∧ ((∀ x ∈ facetResultsFor evaluations facet, x.2.2 = 0) →
              lookupKey facet (comparisonOk evaluations).consensus_scores
                = some ((scoresOf (facetResultsFor evaluations facet)).sum
                    / ((facetResultsFor evaluations facet).length : ℚ)))))
    ∧ ((facetResultsFor evaluations facet).length < 2 →
        lookupKey facet (comparisonOk evaluations).model_agreements = none
        ∧ lookupKey facet (comparisonOk evaluations).score_differences = none
        ∧ lookupKey facet (comparisonOk evaluations).consensus_scores = none) := by
  have hnd : (allFacets evaluations).Nodup := List.nodup_dedup _
  have hag : lookupKey facet (comparisonOk evaluations).model_agreements
      = if facet ∈ allFacets evaluations then agreementEntry evaluations facet else none :=
    lookupKey_filterMap (agreementEntry evaluations) (allFacets evaluations) hnd facet
  have hsd : lookupKey facet (comparisonOk evaluations).score_differences
      = if facet ∈ allFacets evaluations then scoreDiffEntry evaluations facet else none :=
    lookupKey_filterMap (scoreDiffEntry evaluations) (allFacets evaluations) hnd facet
  have hcons : lookupKey facet (comparisonOk evaluations).consensus_scores
      = if facet ∈ allFacets evaluations then consensusEntry evaluations facet else none :=
    lookupKey_filterMap (consensusEntry evaluations) (allFacets evaluations) hnd facet
  refine ⟨?_, ?_, ?_⟩
  · unfold compare_evaluations
    rw [if_neg (not_lt.mpr h2)]
  · intro hd2
    have hne : facetResultsFor evaluations facet ≠ [] := by
      intro h
      rw [h] at hd2
      simp at hd2
    have hmem : facet ∈ allFacets evaluations := facet_mem_allFacets hne
    refine ⟨?_, ?_, ?_⟩
    · rw [hag, if_pos hmem]
      unfold agreementEntry
      rw [if_pos hd2]
      rfl
    · intro hpos
      have hw : 0 < (confsOf (facetResultsFor evaluations facet)).sum := by
        obtain ⟨x, hxmem, hxpos⟩ := hpos
        have hx : x.2.2 ∈ confsOf (facetResultsFor evaluations facet) :=
          List.mem_map_of_mem _ hxmem
        have hle : x.2.2 ≤ (confsOf (facetResultsFor evaluations facet)).sum := by
          apply List.single_le_sum _ _ hx
          intro y hy
          obtain ⟨z, hz, rfl⟩ := List.mem_map.mp hy
          exact hconf z hz
        exact lt_of_lt_of_le hxpos hle
      rw [hcons, if_pos hmem]
      unfold consensusEntry
      rw [if_pos hd2]
      unfold consensusOf
      rw [if_pos hw]
    · intro h0
      have hw0 : (confsOf (facetResultsFor evaluations facet)).sum = 0 := by
        apply List.sum_eq_zero
        intro y hy
        obtain ⟨z, hz, rfl⟩ := List.mem_map.mp hy
        exact h0 z hz
      rw [hcons, if_pos hmem]
      unfold consensusEntry
      rw [if_pos hd2]
      unfold consensusOf
      rw [hw0, if_neg (lt_irrefl 0)]
  · intro hlt
    have hagn : agreementEntry evaluations facet = none := by
      unfold agreementEntry
      rw [if_neg (not_le.mpr hlt)]
    have hsdn : scoreDiffEntry evaluations facet = none := by
      unfold scoreDiffEntry
      rw [if_neg (not_le.mpr hlt)]
    have hconsn : consensusEntry evaluations facet = none := by
      unfold consensusEntry
      rw [if_neg (not_le.mpr hlt)]
    refine ⟨?_, ?_, ?_⟩
    · rw [hag]
      by_cases hm : facet ∈ allFacets evaluations
      · rw [if_pos hm, hagn]
      · rw [if_neg hm]
    · rw [hsd]
      by_cases hm : facet ∈ allFacets evaluations
      · rw [if_pos hm, hsdn]
      · rw [if_neg hm]
    · rw [hcons]
      by_cases hm : facet ∈ allFacets evaluations
      · rw [if_pos hm, hconsn]
      · rw [if_neg hm]

/-- First model record for the C5 witness: judged toxicity (5, 0.9) and a
facet `solo` no other model judged. -/
def cmpEval1 : ConversationEvaluation :=
  { conversation_id := "c1", conversation_text := "t",
    facet_scores := [("toxicity", ⟨"toxicity", 5, 9/10, ""⟩), ("solo", ⟨"solo", 3, 1, ""⟩)],
    confidence_metrics := ⟨0, 0, 0, 1⟩, processing_time := 0,
    model_used := "m1", timestamp := 0 }

/-- Second model record for the C5 witness: judged toxicity (1, 0.1). -/
def cmpEval2 : ConversationEvaluation :=
  { conversation_id := "c2", conversation_text := "t",
    facet_scores := [("toxicity", ⟨"toxicity", 1, 1/10, ""⟩)],
    confidence_metrics := ⟨0, 0, 0, 1⟩, processing_time := 0,
    model_used := "m2", timestamp := 0 }

/-- The two-model comparison input for the C5 witness (the spec's scenario:
scores 5 and 1 with confidences 0.9 and 0.1). -/
def cmpEvals : List (String × ConversationEvaluation) :=
  [("m1", cmpEval1), ("m2", cmpEval2)]

/-- Witness for C5: toxicity (judged by both models) gets agreement 0 and
consensus 4.6, while `solo` (judged by one model) is omitted. -/
theorem compare_evaluations_spec_witness :
    lookupKey "toxicity" (comparisonOk cmpEvals).model_agreements = some 0
    ∧ lookupKey "toxicity" (comparisonOk cmpEvals).consensus_scores = some (23/5)
    ∧ lookupKey "solo" (comparisonOk cmpEvals).model_agreements = none
    ∧ lookupKey "solo" (comparisonOk cmpEvals).consensus_scores = none := by
  have hd : facetResultsFor cmpEvals "toxicity" = [("m1", 5, 9/10), ("m2", 1, 1/10)] := by
    simp [facetResultsFor, cmpEvals, cmpEval1, cmpEval2, lookupKey]
  have hs : facetResultsFor cmpEvals "solo" = [("m1", 3, 1)] := by
    simp [facetResultsFor, cmpEvals, cmpEval1, cmpEval2, lookupKey]
  obtain ⟨-, hmain, -⟩ := compare_evaluations_spec cmpEvals "toxicity" (by simp [cmpEvals])
    (by rw [hd]; intro x hx; fin_cases hx <;> norm_num)
  obtain ⟨-, -, homit⟩ := compare_evaluations_spec cmpEvals "solo" (by simp [cmpEvals])
    (by rw [hs]; intro x hx; fin_cases hx <;> norm_num)
  obtain ⟨hagv, hconsv, -⟩ := hmain (by rw [hd]; simp)
  obtain ⟨hoag, -, hocons⟩ := homit (by rw [hs]; simp)
  refine ⟨?_, ?_, hoag, hocons⟩
  · rw [hagv, hd]
    norm_num [scoresOf, listMax, listMin, max_def, min_def]
  · rw [hconsv ⟨("m1", 5, 9/10), by rw [hd]; simp, by norm_num⟩, hd]
    norm_num [confsOf]

/-- Splitting an empty facet list yields no batches. -/
lemma evaluate_facets_nil (batch_size : ℕ) (m : Model) (conversation : String) :
    evaluate_facets batch_size m conversation [] = [] := by
  unfold evaluate_facets
  cases batch_size with
  | zero => rfl
  | succ n => rfl

/-- If every task succeeded, the gather succeeds with one result per task. -/
lemma gatherExcept_ok_of_all {α : Type} :
    ∀ (ts : List (Except String α)), (∀ t ∈ ts, ∃ a, t = .ok a) →
      ∃ vals, gatherExcept ts = .ok vals ∧ vals.length = ts.length := by
  intro ts
  induction ts with
  | nil => intro _; exact ⟨[], rfl, rfl⟩
  | cons t ts ih =>
    intro h
    obtain ⟨a, rfl⟩ := h t (List.mem_cons_self _ _)
    obtain ⟨vals, hvals, hlen⟩ := ih (fun x hx => h x (List.mem_cons_of_mem _ hx))
    refine ⟨a :: vals, ?_, by simp [hlen]⟩
    simp [gatherExcept, hvals, Except.map]

/-- If any task failed, the gather fails. -/
lemma gatherExcept_error_of_mem {α : Type} :
    ∀ (ts : List (Except String α)), (∃ t ∈ ts, ∃ e, t = .error e) →
      ∃ e, gatherExcept ts = .error e := by
  intro ts
  induction ts with
  | nil =>
    rintro ⟨t, ht, _⟩
    simp at ht
  | cons t ts ih =>
    rintro ⟨u, hu, e, hue⟩
    cases t with
    | error e2 => exact ⟨e2, rfl⟩
    | ok a =>
      have hmem : u ∈ ts := by
        rcases List.mem_cons.mp hu with h1 | h1
        · exfalso
          rw [hue] at h1
          exact Except.noConfusion h1
        · exact h1
      obtain ⟨e3, he3⟩ := ih ⟨u, hmem, e, hue⟩
      exact ⟨e3, by simp [gatherExcept, he3, Except.map]⟩

/-- Claim C6 (amended) — `batch_evaluate` fails on the empty conversation list
(`ZeroDivisionError` computing the average confidence), and a failure in any
single conversation's model acquisition propagates through the plain
`asyncio.gather` and fails the whole batch; only when every conversation's
evaluation succeeds does the batch cover all conversations. -/
theorem batch_evaluate_spec (batch_size : ℕ) (loads : ℕ → Except String Model)
    (conversations facets : List String) (t_start t_end : ℚ) (times : ℕ → ℚ × ℚ) :
    (conversations = [] →
      batch_evaluate batch_size loads conversations facets t_start t_end times
        = .error "ZeroDivisionError")
    ∧ ((∃ i, ∃ _ : i < conversations.length, ∃ e, loads i = .error e) →
        ∃ e, batch_evaluate batch_size loads conversations facets t_start t_end times
          = .error e)
    ∧ (conversations ≠ [] →
        (∀ i, i < conversations.length → ∃ m, loads i = .ok m) →
        ∃ res, batch_evaluate batch_size loads conversations facets t_start t_end times
            = .ok res
          ∧ res.evaluations.length = conversations.length) := by
  refine ⟨?_, ?_, ?_⟩
  · rintro rfl
    rfl
  · rintro ⟨i, hi, e, he⟩
    have hmem : (i, conversations[i]) ∈ conversations.enum := by
      rw [List.mk_mem_enum_iff_getElem?]
      exact List.getElem?_eq_getElem hi
    have htask :
        evaluate_conversation batch_size (loads i) (conversations[i]) facets
          (some ("batch_conv_" ++ toString i)) (times i).1 (times i).2
          ∈ conversations.enum.map (fun ic =>
              evaluate_conversation batch_size (loads ic.1) ic.2 facets
                (some ("batch_conv_" ++ toString ic.1)) (times ic.1).1 (times ic.1).2) :=
      List.mem_map_of_mem _ hmem
    have herr :
        evaluate_conversation batch_size (loads i) (conversations[i]) facets
          (some ("batch_conv_" ++ toString i)) (times i).1 (times i).2 = .error e := by
      rw [he]
      exact rfl
    obtain ⟨e2, hge⟩ := gatherExcept_error_of_mem _ ⟨_, htask, e, herr⟩
    refine ⟨e2, ?_⟩
    simp only [batch_evaluate, hge]
  · intro hne hok
    have hallok : ∀ t ∈ conversations.enum.map (fun ic =>
        evaluate_conversation batch_size (loads ic.1) ic.2 facets
          (some ("batch_conv_" ++ toString ic.1)) (times ic.1).1 (times ic.1).2),
        ∃ r, t = .ok r := by
      intro t ht
      obtain ⟨x, hx, rfl⟩ := List.mem_map.mp ht
      have hx1 : x.1 < conversations.length := by
        have := List.mem_enum_iff_getElem?.mp hx
        exact (List.getElem?_eq_some.mp this).1
      obtain ⟨m, hm⟩ := hok x.1 hx1
      rw [hm]
      exact ⟨_, rfl⟩
    obtain ⟨vals, hg, hlen⟩ := gatherExcept_ok_of_all _ hallok
    have hlen2 : vals.length = conversations.length := by
      rw [hlen]
      simp
    have h0 : ¬ vals.length = 0 := by
      rw [hlen2]
      intro hz
      exact hne (List.length_eq_zero.mp hz)
    refine ⟨{ evaluations := vals, total_processing_time := t_end - t_start,
              average_confidence :=
                (vals.map (·.confidence_metrics.overall_confidence)).sum /
                  (vals.length : ℚ) }, ?_, ?_⟩
    · simp only [batch_evaluate, hg]
      rw [if_neg h0]
    · exact hlen2

/-- Witness for C6 at a concrete two-conversation batch whose model loads all
succeed: the batch covers both conversations. -/
theorem batch_evaluate_spec_witness :
    ∃ res, batch_evaluate 10 (fun _ => .ok mockModel) ["a", "b"] ["grammar"]
        0 1 (fun _ => (0, 1)) = .ok res
      ∧ res.evaluations.length = (["a", "b"] : List String).length :=
  (batch_evaluate_spec 10 (fun _ => .ok mockModel) ["a", "b"] ["grammar"]
      0 1 (fun _ => (0, 1))).2.2 (by simp) (fun i _ => ⟨mockModel, rfl⟩)

/-- Counterexample to C6 as stated: in a two-conversation batch where only
conversation 0's model acquisition fails, the whole `batch_evaluate` fails
(the gather re-raises), so the sibling conversation's result is lost instead
of being covered by the batch. -/
theorem batch_evaluate_abort_counterexample :
    batch_evaluate 10 (fun i => if i = 0 then .error "model load failed" else .ok mockModel)
      ["a", "b"] ["grammar"] 0 1 (fun _ => (0, 1)) = .error "model load failed" := rfl

/-- Claim C7 (amended) — `evaluate_conversation` performs no empty-facet
validation: with an empty facet list and a successfully acquired model it
returns a normal `ConversationEvaluation` whose `facet_scores` is empty and
whose confidence metrics are the sentinel `(0, 0, 0, 1)`; only a
model-acquisition failure propagates as an error. -/
theorem evaluate_conversation_empty_facets (batch_size : ℕ) (m : Model)
    (conversation : String) (cid : Option String) (t_start t_end : ℚ) :
    (∃ r, evaluate_conversation batch_size (.ok m) conversation [] cid t_start t_end = .ok r
        ∧ r.facet_scores = [] ∧ r.confidence_metrics = ⟨0, 0, 0, 1⟩)
    ∧ ∀ e, evaluate_conversation batch_size (.error e) conversation [] cid t_start t_end
        = .error e := by
  refine ⟨⟨_, rfl, ?_, ?_⟩, fun e => rfl⟩
  · show toFacetDict
        (evaluate_facets batch_size m (clean_conversation_text conversation) []) = []
    rw [evaluate_facets_nil]
    exact rfl
  · show calculate_confidence_metrics
        (evaluate_facets batch_size m (clean_conversation_text conversation) []) = ⟨0, 0, 0, 1⟩
    rw [evaluate_facets_nil]
    exact rfl

/-- Counterexample to C7 as stated: a concrete call with an empty facet list
yields a normal evaluation record (cleaned text, empty facet scores, sentinel
metrics), not an error. -/
theorem evaluate_conversation_empty_facets_counterexample :
    (evaluate_conversation 10 (.ok mockModel) "hello" [] none 100 101).map
        (fun r => (r.conversation_text, r.facet_scores, r.confidence_metrics, r.model_used))
      = .ok ("hello.", [], ⟨0, 0, 0, 1⟩, "mock-model") := rfl

/-- Claim C8 (amended) — `clean_conversation_text` is total and maps the empty
string to the empty string, but it is not idempotent: removing a disallowed
character that sat between two spaces leaves a double space that a second
application collapses. -/
theorem clean_conversation_text_spec :
    clean_conversation_text "" = ""
    ∧ ¬ ∀ x : String,
        clean_conversation_text (clean_conversation_text x) = clean_conversation_text x :=
  ⟨rfl, fun h => absurd (h "a @ b") (by decide)⟩

/-- Counterexample to C8 as stated: `clean("a @ b") = "a  b."` (the removed
`@` leaves two adjacent spaces), while `clean(clean("a @ b")) = "a b."`. -/
theorem clean_conversation_text_not_idempotent :
    clean_conversation_text (clean_conversation_text "a @ b")
      ≠ clean_conversation_text "a @ b" := by decide

/-- Claim C9 (amended) — when the caller supplies no conversation id, the
generated id is `conv_` followed by the integer second of the start time, so
any two such evaluations whose start times fall in the same integer second
receive the same id: uniqueness within a run does not hold. -/
theorem generated_conversation_id_collision (batch_size : ℕ) (m1 m2 : Model)
    (conv1 conv2 : String) (facets1 facets2 : List String)
    (ta tb t1 t2 : ℚ) (h : ⌊ta⌋ = ⌊tb⌋) :
    ∃ r1 r2,
      evaluate_conversation batch_size (.ok m1) conv1 facets1 none ta t1 = .ok r1
      ∧ evaluate_conversation batch_size (.ok m2) conv2 facets2 none tb t2 = .ok r2
      ∧ r1.conversation_id = r2.conversation_id := by
  refine ⟨_, _, rfl, rfl, ?_⟩
  show "conv_" ++ toString ⌊ta⌋ = "conv_" ++ toString ⌊tb⌋
  rw [h]

/-- Witness for C9 at two calls 0.04 seconds apart within second 100. -/
theorem generated_conversation_id_collision_witness :
    ∃ r1 r2,
      evaluate_conversation 10 (.ok mockModel) "hello" ["grammar"] none (1003/10) 101 = .ok r1
      ∧ evaluate_conversation 10 (.ok mockModel) "bye" ["grammar"] none (1007/10) 102 = .ok r2
      ∧ r1.conversation_id = r2.conversation_id :=
  generated_conversation_id_collision 10 mockModel mockModel "hello" "bye"
    ["grammar"] ["grammar"] (1003/10) (1007/10) 101 102 (by norm_num)

/-- Counterexample to C9 as stated: two id-less evaluations of different
conversations, started 0.04 s apart inside wall-clock second 100, both get
the generated id `conv_100`. -/
theorem generated_conversation_id_counterexample :
    (evaluate_conversation 10 (.ok mockModel) "hello" ["grammar"] none (1003/10) 101).map
        (fun r => r.conversation_id) = .ok "conv_100"
    ∧ (evaluate_conversation 10 (.ok mockModel) "bye" ["grammar"] none (1007/10) 102).map
        (fun r => r.conversation_id) = .ok "conv_100" := by
  have h1 : (⌊(1003/10 : ℚ)⌋ : ℤ) = 100 := by norm_num
  have h2 : (⌊(1007/10 : ℚ)⌋ : ℤ) = 100 := by norm_num
  constructor
  · simp only [evaluate_conversation, Except.map, h1]
    rfl
  · simp only [evaluate_conversation, Except.map, h2]
    rfl

end ConvEval
